import Mathlib

/-!
Shallow embedding of the clarity-server payments service (src/index.js).

The in-memory database is two JavaScript `Map`s (`users`, `orders`).  A
JavaScript `Map` preserves insertion order and `set` on an existing key
updates the entry in place, so each map is modelled as an association list
`List (String × α)` together with `mapGet` / `mapSet` / `mapHas` mirroring
`Map.get` / `Map.set` / `Map.has`.  A JavaScript `null`/absent field is
`none`; the truthiness coercion `x || null` and `if (x)` on strings is the
helper `orNull` (the empty string is falsy).  Provider SDK calls (Stripe,
PayPal) are external network calls, so their results are passed to the
embedded handlers as explicit parameters.
-/

namespace ClarityServer

/-- A user record, per `ensureUser` in src/index.js:
`{ email, stripeCustomerId, subscriptionId, subscriptionStatus }`. -/
structure UserRec where
  email : Option String
  stripeCustomerId : Option String
  subscriptionId : Option String
  subscriptionStatus : Option String
deriving Repr, DecidableEq

/-- The provider's capture result (`capture.result` in the PayPal capture
handler): a `status` string plus the rest of the payload, abstracted as an
opaque string. -/
structure CaptureResult where
  status : String
  payload : String
deriving Repr, DecidableEq

/-- An order record.  The source stores ad-hoc object literals in `orders`;
this structure has a field for every property any of them uses, `none`
standing for an absent property. -/
structure OrderRec where
  provider : Option String
  sessionId : Option String
  orderId : Option String
  userId : Option String
  status : Option String
  capture : Option CaptureResult
deriving Repr, DecidableEq

/-- The empty object literal `{}` used by the capture handler when the order
id is unknown. -/
def emptyOrder : OrderRec :=
  { provider := none, sessionId := none, orderId := none, userId := none,
    status := none, capture := none }

/-- `Map.get`: the value stored at a key, if any. -/
def mapGet {α : Type} : List (String × α) → String → Option α
  | [], _ => none
  | (k', v) :: rest, k => if k' = k then some v else mapGet rest k

/-- `Map.set`: update the first entry with this key in place, else append
(JavaScript `Map` insertion-order semantics; keys are unique in a `Map`,
so updating the first occurrence is exact). -/
def mapSet {α : Type} : List (String × α) → String → α → List (String × α)
  | [], k, v => [(k, v)]
  | (k', v') :: rest, k, v =>
    if k' = k then (k, v) :: rest else (k', v') :: mapSet rest k v

/-- `Map.has`. -/
def mapHas {α : Type} (m : List (String × α)) (k : String) : Bool :=
  (mapGet m k).isSome

/-- The whole in-memory store: `const users = new Map(); const orders = new Map();`. -/
structure ServerState where
  users : List (String × UserRec)
  orders : List (String × OrderRec)
deriving Repr, DecidableEq

/-- JavaScript truthiness on an optional string, as in `x || null` and
`if (x)`: `null`/`undefined` and the empty string are falsy. -/
def orNull : Option String → Option String
  | none => none
  | some s => if s = "" then none else some s

/-- `ensureUser(userId, email)` (src/index.js lines 63-73): create-if-absent
with all provider fields `null`, then return the stored record. -/
def ensureUser (users : List (String × UserRec)) (userId : String)
    (email : Option String) : List (String × UserRec) × UserRec :=
  if mapHas users userId then
    (users, (mapGet users userId).getD
      { email := none, stripeCustomerId := none, subscriptionId := none,
        subscriptionStatus := none })
  else
    let fresh : UserRec :=
      { email := orNull email, stripeCustomerId := none, subscriptionId := none,
        subscriptionStatus := none }
    (mapSet users userId fresh, fresh)

/-- A Stripe webhook event, flattened: `type` is `event.type` and the other
fields are the properties of `event.data.object` that the handler reads
(`id`, `metadata?.userId`, `subscription`, `customer`, `status`).  For a
checkout session `sessionId` is the object's `id`; for a subscription or
invoice object `objectId` is its `id`. -/
structure StripeEvent where
  type : String
  sessionId : String
  metadataUserId : Option String
  subscription : Option String
  customer : Option String
  objectId : String
  status : String
deriving Repr, DecidableEq

/-- The linear scan `for (const [uid, u] of users.entries()) { if
(u.stripeCustomerId === custId) { ...; users.set(uid, u); break; } }`:
apply `f` to the first user whose `stripeCustomerId` equals `cust`,
leave everything else alone. -/
def updateFirstUser (users : List (String × UserRec)) (cust : Option String)
    (f : UserRec → UserRec) : List (String × UserRec) :=
  match users with
  | [] => []
  | (uid, u) :: rest =>
    if u.stripeCustomerId = cust then (uid, f u) :: rest
    else (uid, u) :: updateFirstUser rest cust f

/-- The `switch (event.type)` body of the `/webhook` handler
(src/index.js lines 275-325), as a state transformer. -/
def handleEvent (s : ServerState) (e : StripeEvent) : ServerState :=
  if e.type = "checkout.session.completed" then
    let orders' := mapSet s.orders e.sessionId
      { provider := some "stripe", sessionId := some e.sessionId, orderId := none,
        userId := orNull e.metadataUserId, status := some "completed", capture := none }
    let users' :=
      match orNull e.subscription with
      | some subId =>
        updateFirstUser s.users e.customer fun u =>
          { u with subscriptionId := some subId, subscriptionStatus := some "active" }
      | none => s.users
    { users := users', orders := orders' }
  else if e.type = "invoice.payment_succeeded" then
    s
  else if e.type = "customer.subscription.updated"
      ∨ e.type = "customer.subscription.deleted"
      ∨ e.type = "customer.subscription.created" then
    { s with users :=
        updateFirstUser s.users e.customer fun u =>
          { u with subscriptionId := some e.objectId,
                   subscriptionStatus := some e.status } }
  else
    s

/-- Outcome of `stripe.webhooks.constructEvent` on the raw payload: a
verified event, or a thrown verification error with its message. -/
inductive VerifyResult where
  | ok (e : StripeEvent)
  | fail (msg : String)
deriving Repr, DecidableEq

/-- Response of the `/webhook` route: `res.json({received:true})` or
`res.status(400).send(...)`. -/
inductive WebhookResponse where
  | received
  | badRequest (msg : String)
deriving Repr, DecidableEq

/-- HTTP status of a webhook response. -/
def WebhookResponse.statusCode : WebhookResponse → Nat
  | .received => 200
  | .badRequest _ => 400

/-- The `/webhook` route (src/index.js lines 250-332).  `secretConfigured`
is whether `STRIPE_WEBHOOK_SECRET` is set; `verification` is the outcome of
`constructEvent` on the raw body (only consulted when a secret is
configured); `parsedBody` is `req.body`, used unverified otherwise. -/
def webhookRoute (s : ServerState) (secretConfigured : Bool)
    (verification : VerifyResult) (parsedBody : StripeEvent) :
    ServerState × WebhookResponse :=
  if secretConfigured then
    match verification with
    | .fail msg => (s, .badRequest ("Webhook Error: " ++ msg))
    | .ok e => (handleEvent s e, .received)
  else
    (handleEvent s parsedBody, .received)

/-- Response of the JSON API routes. -/
inductive ApiResp where
  | badRequest (error : String)
  | notFound (error : String)
  | checkoutOk (url : Option String) (sessionId : String)
  | paypalOrderOk (orderId : String) (approvalUrl : Option String)
  | captureOk (cap : CaptureResult)
  | statusOk (userId : String) (subscriptionStatus : String)
      (stripeCustomerId : Option String)
deriving Repr, DecidableEq

/-- HTTP status of an API response. -/
def ApiResp.statusCode : ApiResp → Nat
  | .badRequest _ => 400
  | .notFound _ => 404
  | _ => 200

/-- Request body of `/create-checkout-session` (the fields the handler reads). -/
structure CheckoutReq where
  userId : Option String
  email : Option String
  priceId : Option String
deriving Repr, DecidableEq

/-- The `/create-checkout-session` handler (src/index.js lines 88-130), with
the provider results injected: `anonId` is the generated
`anon_${Date.now()}` fallback id, `newCustomerId` the id
`stripe.customers.create` would return, `newSessionId`/`sessionUrl` the
session `stripe.checkout.sessions.create` would return.  The third
component records whether any provider call was executed. -/
def createCheckoutSession (s : ServerState) (req : CheckoutReq)
    (anonId newCustomerId newSessionId : String) (sessionUrl : Option String) :
    ServerState × ApiResp × Bool :=
  match orNull req.priceId with
  | none => (s, .badRequest "priceId is required", false)
  | some _ =>
    let uid := (orNull req.userId).getD anonId
    let step := ensureUser s.users uid req.email
    let users1 := step.1
    let user := step.2
    let users2 :=
      match orNull user.stripeCustomerId with
      | some _ => users1
      | none => mapSet users1 uid { user with stripeCustomerId := some newCustomerId }
    let orders' := mapSet s.orders newSessionId
      { provider := some "stripe", sessionId := some newSessionId, orderId := none,
        userId := req.userId, status := some "created", capture := none }
    ({ users := users2, orders := orders' }, .checkoutOk sessionUrl newSessionId, true)

/-- The `/create-paypal-order` handler (src/index.js lines 143-182), with the
provider's created order injected (`pOrderId`, `pStatus`, `approvalUrl`). -/
def createPaypalOrder (s : ServerState) (userId amount : Option String)
    (pOrderId pStatus : String) (approvalUrl : Option String) :
    ServerState × ApiResp × Bool :=
  match orNull amount with
  | none => (s, .badRequest "amount required", false)
  | some _ =>
    let orders' := mapSet s.orders pOrderId
      { provider := some "paypal", sessionId := none, orderId := some pOrderId,
        userId := userId, status := some pStatus, capture := none }
    ({ s with orders := orders' }, .paypalOrderOk pOrderId approvalUrl, true)

/-- The `/capture-paypal-order` handler (src/index.js lines 188-211), with
the provider's successful capture result injected as `cap`. -/
def capturePaypalOrder (s : ServerState) (orderIdReq : Option String)
    (cap : CaptureResult) : ServerState × ApiResp × Bool :=
  match orNull orderIdReq with
  | none => (s, .badRequest "orderId required", false)
  | some oid =>
    let existing := (mapGet s.orders oid).getD emptyOrder
    let updated := { existing with status := some cap.status, capture := some cap }
    ({ s with orders := mapSet s.orders oid updated }, .captureOk cap, true)

/-- The `GET /subscription-status` handler (src/index.js lines 219-242).
`retrieve` is `stripe.subscriptions.retrieve`, giving the fresh status the
provider reports for a subscription id. -/
def subscriptionStatusRoute (s : ServerState) (userIdQuery : Option String)
    (retrieve : String → String) : ServerState × ApiResp × Bool :=
  match orNull userIdQuery with
  | none => (s, .badRequest "userId required", false)
  | some uid =>
    match mapGet s.users uid with
    | none => (s, .notFound "user_not_found", false)
    | some user =>
      match orNull user.subscriptionId with
      | some subId =>
        let fresh := retrieve subId
        let user' := { user with subscriptionStatus := some fresh }
        ({ s with users := mapSet s.users uid user' },
         .statusOk uid ((orNull (some fresh)).getD "none") user.stripeCustomerId, true)
      | none =>
        (s, .statusOk uid ((orNull user.subscriptionStatus).getD "none")
              user.stripeCustomerId, false)

/-- First user record matching a Stripe customer id (the spec's
`findUserByCustomerId`, i.e. the first hit of the linear scan). -/
def findUserByCustomerId (users : List (String × UserRec)) (cust : Option String) :
    Option (String × UserRec) :=
  users.find? fun p => p.2.stripeCustomerId = cust

/-- Whether a state transformer never drops a key of either map. -/
def preservesKeys (f : ServerState → ServerState) : Prop :=
  ∀ s k, (mapHas s.users k = true → mapHas (f s).users k = true) ∧
         (mapHas s.orders k = true → mapHas (f s).orders k = true)

theorem mapGet_mapSet_self {α : Type} (m : List (String × α)) (k : String) (v : α) :
    mapGet (mapSet m k v) k = some v := by
  induction m with
  | nil => simp [mapSet, mapGet]
  | cons p rest ih =>
    obtain ⟨k0, v0⟩ := p
    by_cases h : k0 = k
    · simp [mapSet, h, mapGet]
    · simp [mapSet, h, mapGet, ih]

theorem mapGet_mapSet_ne {α : Type} (m : List (String × α)) (k k' : String) (v : α)
    (h : k' ≠ k) : mapGet (mapSet m k' v) k = mapGet m k := by
  induction m with
  | nil => simp [mapSet, mapGet, h]
  | cons p rest ih =>
    obtain ⟨k0, v0⟩ := p
    by_cases h0 : k0 = k'
    · subst h0
      simp [mapSet, mapGet, h]
    · simp [mapSet, h0, mapGet, ih]

theorem mapHas_mapSet {α : Type} (m : List (String × α)) (k k' : String) (v : α)
    (h : mapHas m k = true) : mapHas (mapSet m k' v) k = true := by
  by_cases hk : k' = k
  · subst hk
    simp [mapHas, mapGet_mapSet_self]
  · simpa [mapHas, mapGet_mapSet_ne m k k' v hk] using h

theorem mapSet_of_not_has {α : Type} (m : List (String × α)) (k : String) (v : α)
    (h : mapHas m k = false) : mapSet m k v = m ++ [(k, v)] := by
  induction m with
  | nil => simp [mapSet]
  | cons p rest ih =>
    obtain ⟨k0, v0⟩ := p
    by_cases h0 : k0 = k
    · simp [mapHas, mapGet, h0] at h
    · have h' : mapHas rest k = false := by simpa [mapHas, mapGet, h0] using h
      simp [mapSet, h0, ih h']

theorem mapGet_isSome_of_has {α : Type} (m : List (String × α)) (k : String)
    (h : mapHas m k = true) : ∃ v, mapGet m k = some v := by
  simpa [mapHas, Option.isSome_iff_exists] using h

theorem updateFirstUser_isSome (us : List (String × UserRec)) (cust : Option String)
    (f : UserRec → UserRec) (k : String) :
    (mapGet (updateFirstUser us cust f) k).isSome = (mapGet us k).isSome := by
  induction us with
  | nil => rfl
  | cons p rest ih =>
    obtain ⟨uid, u⟩ := p
    by_cases h : u.stripeCustomerId = cust <;>
      by_cases hk : uid = k <;>
        simp [updateFirstUser, h, mapGet, hk, ih]

theorem mapHas_updateFirstUser (us : List (String × UserRec)) (cust : Option String)
    (f : UserRec → UserRec) (k : String) :
    mapHas (updateFirstUser us cust f) k = mapHas us k := by
  simp [mapHas, updateFirstUser_isSome]

theorem updateFirstUser_spec (us : List (String × UserRec)) (cust : Option String)
    (f : UserRec → UserRec) :
    ((∀ p ∈ us, p.2.stripeCustomerId ≠ cust) ∧ updateFirstUser us cust f = us)
    ∨ (∃ l1 uid u l2, us = l1 ++ (uid, u) :: l2 ∧
        (∀ p ∈ l1, p.2.stripeCustomerId ≠ cust) ∧
        u.stripeCustomerId = cust ∧
        updateFirstUser us cust f = l1 ++ (uid, f u) :: l2) := by
  induction us with
  | nil => exact Or.inl ⟨by simp, rfl⟩
  | cons p rest ih =>
    obtain ⟨uid, u⟩ := p
    by_cases h : u.stripeCustomerId = cust
    · exact Or.inr ⟨[], uid, u, rest, rfl, by simp, h, by simp [updateFirstUser, h]⟩
    · rcases ih with ⟨hall, heq⟩ | ⟨l1, uid', u', l2, hsplit, hl1, hm, heq⟩
      · refine Or.inl ⟨?_, by simp [updateFirstUser, h, heq]⟩
        intro q hq
        rcases List.mem_cons.mp hq with hq | hq
        · simpa [hq] using h
        · exact hall q hq
      · refine Or.inr ⟨(uid, u) :: l1, uid', u', l2, by simp [hsplit], ?_, hm, ?_⟩
        · intro q hq
          rcases List.mem_cons.mp hq with hq | hq
          · simpa [hq] using h
          · exact hl1 q hq
        · simp only [updateFirstUser]
          rw [if_neg h, heq]
          simp

theorem mapHas_ensureUser (us : List (String × UserRec)) (uid : String)
    (em : Option String) (k : String) (h : mapHas us k = true) :
    mapHas (ensureUser us uid em).1 k = true := by
  by_cases hh : mapHas us uid = true
  · simpa [ensureUser, hh] using h
  · simp only [ensureUser, hh, if_false, Bool.false_eq_true]
    exact mapHas_mapSet us k uid _ h

theorem handleEvent_checkout (s : ServerState) (e : StripeEvent)
    (h : e.type = "checkout.session.completed") :
    handleEvent s e =
      { users :=
          match orNull e.subscription with
          | some subId =>
            updateFirstUser s.users e.customer fun u =>
              { u with subscriptionId := some subId,
                       subscriptionStatus := some "active" }
          | none => s.users,
        orders := mapSet s.orders e.sessionId
          { provider := some "stripe", sessionId := some e.sessionId, orderId := none,
            userId := orNull e.metadataUserId, status := some "completed",
            capture := none } } := by
  simp [handleEvent, h]

theorem handleEvent_invoice (s : ServerState) (e : StripeEvent)
    (h : e.type = "invoice.payment_succeeded") : handleEvent s e = s := by
  simp [handleEvent, h]

theorem handleEvent_subscription (s : ServerState) (e : StripeEvent)
    (h : e.type = "customer.subscription.created"
       ∨ e.type = "customer.subscription.updated"
       ∨ e.type = "customer.subscription.deleted") :
    handleEvent s e =
      { s with users :=
          updateFirstUser s.users e.customer fun u =>
            { u with subscriptionId := some e.objectId,
                     subscriptionStatus := some e.status } } := by
  rcases h with h | h | h <;> simp [handleEvent, h]

theorem handleEvent_default (s : ServerState) (e : StripeEvent)
    (h1 : e.type ≠ "checkout.session.completed")
    (h2 : e.type ≠ "invoice.payment_succeeded")
    (h3 : e.type ≠ "customer.subscription.created")
    (h4 : e.type ≠ "customer.subscription.updated")
    (h5 : e.type ≠ "customer.subscription.deleted") :
    handleEvent s e = s := by
  simp [handleEvent, h1, h2, h3, h4, h5]

theorem mapHas_handleEvent_users (s : ServerState) (e : StripeEvent) (k : String)
    (h : mapHas s.users k = true) : mapHas (handleEvent s e).users k = true := by
  by_cases hc : e.type = "checkout.session.completed"
  · rw [handleEvent_checkout s e hc]
    cases horn : orNull e.subscription <;> simp [horn, mapHas_updateFirstUser, h]
  · by_cases hi : e.type = "invoice.payment_succeeded"
    · rw [handleEvent_invoice s e hi]; exact h
    · by_cases hs : e.type = "customer.subscription.created"
        ∨ e.type = "customer.subscription.updated"
        ∨ e.type = "customer.subscription.deleted"
      · rw [handleEvent_subscription s e hs]
        simpa [mapHas_updateFirstUser] using h
      · push_neg at hs
        rw [handleEvent_default s e hc hi hs.1 hs.2.1 hs.2.2]
        exact h

theorem mapHas_handleEvent_orders (s : ServerState) (e : StripeEvent) (k : String)
    (h : mapHas s.orders k = true) : mapHas (handleEvent s e).orders k = true := by
  by_cases hc : e.type = "checkout.session.completed"
  · rw [handleEvent_checkout s e hc]
    exact mapHas_mapSet s.orders k e.sessionId _ h
  · by_cases hi : e.type = "invoice.payment_succeeded"
    · rw [handleEvent_invoice s e hi]; exact h
    · by_cases hs : e.type = "customer.subscription.created"
        ∨ e.type = "customer.subscription.updated"
        ∨ e.type = "customer.subscription.deleted"
      · rw [handleEvent_subscription s e hs]; exact h
      · push_neg at hs
        rw [handleEvent_default s e hc hi hs.1 hs.2.1 hs.2.2]
        exact h

/-- C1: handling a "checkout.session.completed" event whose session has a
non-empty `subscription` field and whose `customer` id equals the
`stripeCustomerId` of some stored user sets the (first) matching user's
`subscriptionStatus` to "active" and its `subscriptionId` to the event's
subscription id, and leaves every other user record unchanged. -/
theorem checkout_completed_activates_matching_user
    (s : ServerState) (e : StripeEvent) (subId : String)
    (htype : e.type = "checkout.session.completed")
    (hsub : orNull e.subscription = some subId)
    (hmem : ∃ p ∈ s.users, p.2.stripeCustomerId = e.customer) :
    ∃ l1 uid u l2,
      s.users = l1 ++ (uid, u) :: l2 ∧
      (∀ p ∈ l1, p.2.stripeCustomerId ≠ e.customer) ∧
      u.stripeCustomerId = e.customer ∧
      (handleEvent s e).users =
        l1 ++ (uid, { u with subscriptionId := some subId,
                             subscriptionStatus := some "active" }) :: l2 := by
  rcases updateFirstUser_spec s.users e.customer
      (fun u => { u with subscriptionId := some subId,
                         subscriptionStatus := some "active" }) with
    ⟨hall, _⟩ | ⟨l1, uid, u, l2, hsplit, hl1, hm, heq⟩
  · obtain ⟨p, hp, hpc⟩ := hmem
    exact absurd hpc (hall p hp)
  · refine ⟨l1, uid, u, l2, hsplit, hl1, hm, ?_⟩
    rw [handleEvent_checkout s e htype]
    simpa [hsub] using heq

/-- Witness for C1: a one-user store whose customer id matches the event. -/
theorem checkout_completed_activates_matching_user_witness :
    ∃ l1 uid u l2,
      (ServerState.mk
        [("u1", { email := none, stripeCustomerId := some "cus_1",
                  subscriptionId := none, subscriptionStatus := none })] []).users
        = l1 ++ (uid, u) :: l2 ∧
      (∀ p ∈ l1,
        p.2.stripeCustomerId ≠
          (StripeEvent.mk "checkout.session.completed" "sess_1" none (some "sub_1")
            (some "cus_1") "" "").customer) ∧
      u.stripeCustomerId =
        (StripeEvent.mk "checkout.session.completed" "sess_1" none (some "sub_1")
          (some "cus_1") "" "").customer ∧
      (handleEvent
          (ServerState.mk
            [("u1", { email := none, stripeCustomerId := some "cus_1",
                      subscriptionId := none, subscriptionStatus := none })] [])
          (StripeEvent.mk "checkout.session.completed" "sess_1" none (some "sub_1")
            (some "cus_1") "" "")).users
        = l1 ++ (uid, { u with subscriptionId := some "sub_1",
                               subscriptionStatus := some "active" }) :: l2 :=
  checkout_completed_activates_matching_user _ _ _ rfl rfl
    ⟨("u1", { email := none, stripeCustomerId := some "cus_1",
              subscriptionId := none, subscriptionStatus := none }),
     by simp, rfl⟩

/-- C2 counterexample: an order for session "sess_1" already stores
userId "u1"; a completed-checkout event for that session whose metadata
carries no user id leaves the stored order with userId null, so the
already-stored user id IS discarded (the handler replaces the record
instead of merging). -/
theorem checkout_completed_discards_stored_user_id :
    mapGet
        (handleEvent
          (ServerState.mk []
            [("sess_1",
              { provider := some "stripe", sessionId := some "sess_1",
                orderId := none, userId := some "u1", status := some "created",
                capture := none })])
          (StripeEvent.mk "checkout.session.completed" "sess_1" none none none
            "" "")).orders "sess_1"
      = some
          { provider := some "stripe", sessionId := some "sess_1", orderId := none,
            userId := none, status := some "completed", capture := none } ∧
    (mapGet
        (ServerState.mk []
          [("sess_1",
            { provider := some "stripe", sessionId := some "sess_1",
              orderId := none, userId := some "u1", status := some "created",
              capture := none })]).orders "sess_1").map OrderRec.userId
      = some (some "u1") := by
  exact ⟨rfl, rfl⟩

/-- C2 amended: handling a "checkout.session.completed" event stores at the
session id key a fresh order record with provider "stripe", status
"completed", and userId taken from the event metadata when present (null
otherwise); any order record previously stored under that key, including
its user id, is overwritten rather than merged. -/
theorem checkout_completed_replaces_order (s : ServerState) (e : StripeEvent)
    (htype : e.type = "checkout.session.completed") :
    mapGet (handleEvent s e).orders e.sessionId =
      some { provider := some "stripe", sessionId := some e.sessionId, orderId := none,
             userId := orNull e.metadataUserId, status := some "completed",
             capture := none } := by
  rw [handleEvent_checkout s e htype]
  exact mapGet_mapSet_self _ _ _

/-- Witness for the amended C2. -/
theorem checkout_completed_replaces_order_witness :
    mapGet
        (handleEvent (ServerState.mk [] [])
          (StripeEvent.mk "checkout.session.completed" "sess_2" (some "u9") none
            none "" "")).orders "sess_2"
      = some { provider := some "stripe", sessionId := some "sess_2", orderId := none,
               userId := some "u9", status := some "completed", capture := none } :=
  checkout_completed_replaces_order _ _ rfl

/-- C3: a customer.subscription.created/updated/deleted event overwrites the
subscriptionId and subscriptionStatus of the first user record (in map
iteration order) whose stripeCustomerId equals the event's customer id with
the event's subscription id and status, leaves every user whose
stripeCustomerId does not match unchanged, and changes no user record at
all when none matches; order records are untouched. -/
theorem subscription_event_updates_first_match (s : ServerState) (e : StripeEvent)
    (htype : e.type = "customer.subscription.created"
       ∨ e.type = "customer.subscription.updated"
       ∨ e.type = "customer.subscription.deleted") :
    (handleEvent s e).orders = s.orders ∧
    ((∀ p ∈ s.users, p.2.stripeCustomerId ≠ e.customer) →
      (handleEvent s e).users = s.users) ∧
    ((∃ p ∈ s.users, p.2.stripeCustomerId = e.customer) →
      ∃ l1 uid u l2,
        s.users = l1 ++ (uid, u) :: l2 ∧
        (∀ p ∈ l1, p.2.stripeCustomerId ≠ e.customer) ∧
        u.stripeCustomerId = e.customer ∧
        (handleEvent s e).users =
          l1 ++ (uid, { u with subscriptionId := some e.objectId,
                               subscriptionStatus := some e.status }) :: l2) := by
  rw [handleEvent_subscription s e htype]
  refine ⟨rfl, ?_, ?_⟩
  · intro hall
    rcases updateFirstUser_spec s.users e.customer
        (fun u => { u with subscriptionId := some e.objectId,
                           subscriptionStatus := some e.status }) with
      ⟨_, heq⟩ | ⟨l1, uid, u, l2, hsplit, _, hm, _⟩
    · exact heq
    · exact absurd hm (hall (uid, u) (by rw [hsplit]; simp))
  · intro hmem
    rcases updateFirstUser_spec s.users e.customer
        (fun u => { u with subscriptionId := some e.objectId,
                           subscriptionStatus := some e.status }) with
      ⟨hall, _⟩ | ⟨l1, uid, u, l2, hsplit, hl1, hm, heq⟩
    · obtain ⟨p, hp, hpc⟩ := hmem
      exact absurd hpc (hall p hp)
    · exact ⟨l1, uid, u, l2, hsplit, hl1, hm, heq⟩

/-- Witness for C3: a subscription-deleted event against a matching user. -/
theorem subscription_event_updates_first_match_witness :
    (handleEvent
        (ServerState.mk
          [("u1", { email := none, stripeCustomerId := some "cus_1",
                    subscriptionId := some "sub_1",
                    subscriptionStatus := some "active" })] [])
        (StripeEvent.mk "customer.subscription.deleted" "" none none
          (some "cus_1") "sub_1" "canceled")).orders
      = (ServerState.mk
          [("u1", { email := none, stripeCustomerId := some "cus_1",
                    subscriptionId := some "sub_1",
                    subscriptionStatus := some "active" })] []).orders ∧
    ((∀ p ∈ (ServerState.mk
          [("u1", { email := none, stripeCustomerId := some "cus_1",
                    subscriptionId := some "sub_1",
                    subscriptionStatus := some "active" })] []).users,
        p.2.stripeCustomerId ≠ (some "cus_1" : Option String)) →
      (handleEvent
        (ServerState.mk
          [("u1", { email := none, stripeCustomerId := some "cus_1",
                    subscriptionId := some "sub_1",
                    subscriptionStatus := some "active" })] [])
        (StripeEvent.mk "customer.subscription.deleted" "" none none
          (some "cus_1") "sub_1" "canceled")).users
        = (ServerState.mk
            [("u1", { email := none, stripeCustomerId := some "cus_1",
                      subscriptionId := some "sub_1",
                      subscriptionStatus := some "active" })] []).users) ∧
    ((∃ p ∈ (ServerState.mk
          [("u1", { email := none, stripeCustomerId := some "cus_1",
                    subscriptionId := some "sub_1",
                    subscriptionStatus := some "active" })] []).users,
        p.2.stripeCustomerId = (some "cus_1" : Option String)) →
      ∃ l1 uid u l2,
        (ServerState.mk
          [("u1", { email := none, stripeCustomerId := some "cus_1",
                    subscriptionId := some "sub_1",
                    subscriptionStatus := some "active" })] []).users
          = l1 ++ (uid, u) :: l2 ∧
        (∀ p ∈ l1, p.2.stripeCustomerId ≠ (some "cus_1" : Option String)) ∧
        u.stripeCustomerId = some "cus_1" ∧
        (handleEvent
          (ServerState.mk
            [("u1", { email := none, stripeCustomerId := some "cus_1",
                      subscriptionId := some "sub_1",
                      subscriptionStatus := some "active" })] [])
          (StripeEvent.mk "customer.subscription.deleted" "" none none
            (some "cus_1") "sub_1" "canceled")).users
          = l1 ++ (uid, { u with subscriptionId := some "sub_1",
                                 subscriptionStatus := some "canceled" }) :: l2) :=
  subscription_event_updates_first_match _ _ (Or.inr (Or.inr rfl))

/-- C4: a verified webhook event whose type is none of the handled kinds is
acknowledged with received:true and leaves the users and orders maps
exactly unchanged. -/
theorem unhandled_event_is_noop (s : ServerState) (e body : StripeEvent)
    (h1 : e.type ≠ "checkout.session.completed")
    (h2 : e.type ≠ "invoice.payment_succeeded")
    (h3 : e.type ≠ "customer.subscription.created")
    (h4 : e.type ≠ "customer.subscription.updated")
    (h5 : e.type ≠ "customer.subscription.deleted") :
    webhookRoute s true (VerifyResult.ok e) body = (s, WebhookResponse.received) := by
  simp only [webhookRoute]
  rw [handleEvent_default s e h1 h2 h3 h4 h5]
  simp

/-- Witness for C4: an event of an unhandled type. -/
theorem unhandled_event_is_noop_witness :
    webhookRoute
        (ServerState.mk
          [("u1", { email := none, stripeCustomerId := some "cus_1",
                    subscriptionId := none, subscriptionStatus := none })]
          [])
        true
        (VerifyResult.ok
          (StripeEvent.mk "payment_intent.succeeded" "" none none none "" ""))
        (StripeEvent.mk "payment_intent.succeeded" "" none none none "" "")
      = (ServerState.mk
          [("u1", { email := none, stripeCustomerId := some "cus_1",
                    subscriptionId := none, subscriptionStatus := none })]
          [],
         WebhookResponse.received) :=
  unhandled_event_is_noop _ _ _ (by decide) (by decide) (by decide) (by decide)
    (by decide)

/-- C5: when a webhook secret is configured and signature verification of
the raw payload fails, the webhook route answers with a 4xx (status 400)
and leaves the users and orders maps exactly as they were. -/
theorem invalid_signature_rejected (s : ServerState) (msg : String)
    (body : StripeEvent) :
    webhookRoute s true (VerifyResult.fail msg) body
      = (s, WebhookResponse.badRequest ("Webhook Error: " ++ msg)) ∧
    (WebhookResponse.badRequest ("Webhook Error: " ++ msg)).statusCode = 400 :=
  ⟨rfl, rfl⟩

/-- C6: for an unseen identifier `ensureUser` appends exactly one new record
whose stripeCustomerId, subscriptionId and subscriptionStatus are all
absent; for an identifier already present it returns the stored record and
leaves the map — hence every already-assigned field — untouched. -/
theorem ensureUser_create_or_get (users : List (String × UserRec)) (uid : String)
    (email email2 : Option String) :
    (mapHas users uid = false →
      ensureUser users uid email =
        (users ++ [(uid, { email := orNull email, stripeCustomerId := none,
                           subscriptionId := none, subscriptionStatus := none })],
         { email := orNull email, stripeCustomerId := none,
           subscriptionId := none, subscriptionStatus := none })) ∧
    (∀ u, mapGet users uid = some u → ensureUser users uid email2 = (users, u)) := by
  constructor
  · intro h
    simp only [ensureUser, h, Bool.false_eq_true, if_false]
    rw [mapSet_of_not_has users uid _ h]
  · intro u hu
    have hh : mapHas users uid = true := by simp [mapHas, hu]
    simp [ensureUser, hh, hu]

/-- Witness for C6: create on an empty store, then get it back unchanged. -/
theorem ensureUser_create_or_get_witness :
    ensureUser [] "u1" (some "a") =
      ([("u1", { email := some "a", stripeCustomerId := none,
                 subscriptionId := none, subscriptionStatus := none })],
       { email := some "a", stripeCustomerId := none,
         subscriptionId := none, subscriptionStatus := none }) ∧
    ensureUser
        [("u1", { email := some "a", stripeCustomerId := some "cus_1",
                  subscriptionId := some "sub_1",
                  subscriptionStatus := some "active" })] "u1" none =
      ([("u1", { email := some "a", stripeCustomerId := some "cus_1",
                 subscriptionId := some "sub_1",
                 subscriptionStatus := some "active" })],
       { email := some "a", stripeCustomerId := some "cus_1",
         subscriptionId := some "sub_1", subscriptionStatus := some "active" }) :=
  ⟨(ensureUser_create_or_get [] "u1" (some "a") (some "a")).1 rfl,
   (ensureUser_create_or_get
      [("u1", { email := some "a", stripeCustomerId := some "cus_1",
                subscriptionId := some "sub_1",
                subscriptionStatus := some "active" })] "u1" none none).2
     { email := some "a", stripeCustomerId := some "cus_1",
       subscriptionId := some "sub_1", subscriptionStatus := some "active" } rfl⟩

/-- C7: on a successful provider capture, /capture-paypal-order merges the
capture's status and the full capture payload into the order record keyed
by the given order id (starting from the empty record when the id is
unknown locally), preserves the record's other fields and every other
order, touches no user, executes the provider call and returns the
provider's result without failing locally. -/
theorem capture_paypal_order_merges (s : ServerState) (orderIdReq : Option String)
    (oid : String) (cap : CaptureResult)
    (h : orNull orderIdReq = some oid) :
    (capturePaypalOrder s orderIdReq cap).1.users = s.users ∧
    (capturePaypalOrder s orderIdReq cap).2.1 = ApiResp.captureOk cap ∧
    (capturePaypalOrder s orderIdReq cap).2.2 = true ∧
    mapGet (capturePaypalOrder s orderIdReq cap).1.orders oid =
      some { (mapGet s.orders oid).getD emptyOrder with
             status := some cap.status, capture := some cap } ∧
    (∀ k, k ≠ oid → mapGet (capturePaypalOrder s orderIdReq cap).1.orders k
        = mapGet s.orders k) := by
  simp only [capturePaypalOrder, h]
  exact ⟨trivial, trivial, trivial, mapGet_mapSet_self _ _ _,
    fun k hk => mapGet_mapSet_ne _ _ _ _ (Ne.symm hk)⟩

/-- Witness for C7: capturing an order id unknown to the local store. -/
theorem capture_paypal_order_merges_witness :
    (capturePaypalOrder (ServerState.mk [] []) (some "pp_1")
        (CaptureResult.mk "COMPLETED" "payload")).1.users = [] ∧
    (capturePaypalOrder (ServerState.mk [] []) (some "pp_1")
        (CaptureResult.mk "COMPLETED" "payload")).2.1
      = ApiResp.captureOk (CaptureResult.mk "COMPLETED" "payload") ∧
    (capturePaypalOrder (ServerState.mk [] []) (some "pp_1")
        (CaptureResult.mk "COMPLETED" "payload")).2.2 = true ∧
    mapGet (capturePaypalOrder (ServerState.mk [] []) (some "pp_1")
        (CaptureResult.mk "COMPLETED" "payload")).1.orders "pp_1"
      = some { provider := none, sessionId := none, orderId := none, userId := none,
               status := some "COMPLETED",
               capture := some (CaptureResult.mk "COMPLETED" "payload") } ∧
    (∀ k, k ≠ "pp_1" →
      mapGet (capturePaypalOrder (ServerState.mk [] []) (some "pp_1")
          (CaptureResult.mk "COMPLETED" "payload")).1.orders k
        = mapGet (ServerState.mk [] []).orders k) :=
  capture_paypal_order_merges (ServerState.mk [] []) (some "pp_1") "pp_1"
    (CaptureResult.mk "COMPLETED" "payload") rfl

/-- C8: each of the four routes rejects a request missing its required
field with status 400 and a machine-readable error string, executing no
provider call and leaving the store unchanged. -/
theorem missing_required_field_rejected (s : ServerState) (req : CheckoutReq)
    (a b c : String) (url : Option String)
    (pUserId pAmount : Option String) (poid pst : String) (aurl : Option String)
    (oidReq : Option String) (cap : CaptureResult)
    (q : Option String) (retrieve : String → String) :
    (orNull req.priceId = none →
      createCheckoutSession s req a b c url
        = (s, ApiResp.badRequest "priceId is required", false)) ∧
    (orNull pAmount = none →
      createPaypalOrder s pUserId pAmount poid pst aurl
        = (s, ApiResp.badRequest "amount required", false)) ∧
    (orNull oidReq = none →
      capturePaypalOrder s oidReq cap
        = (s, ApiResp.badRequest "orderId required", false)) ∧
    (orNull q = none →
      subscriptionStatusRoute s q retrieve
        = (s, ApiResp.badRequest "userId required", false)) ∧
    (ApiResp.badRequest "priceId is required").statusCode = 400 ∧
    (ApiResp.badRequest "amount required").statusCode = 400 ∧
    (ApiResp.badRequest "orderId required").statusCode = 400 ∧
    (ApiResp.badRequest "userId required").statusCode = 400 := by
  refine ⟨?_, ?_, ?_, ?_, rfl, rfl, rfl, rfl⟩ <;> intro h <;>
    simp [createCheckoutSession, createPaypalOrder, capturePaypalOrder,
      subscriptionStatusRoute, h]

/-- Witness for C8: all four routes called with the required field absent. -/
theorem missing_required_field_rejected_witness :
    createCheckoutSession (ServerState.mk [] []) (CheckoutReq.mk none none none)
        "anon_1" "cus_9" "sess_9" none
      = (ServerState.mk [] [], ApiResp.badRequest "priceId is required", false) ∧
    createPaypalOrder (ServerState.mk [] []) none none "pp_9" "CREATED" none
      = (ServerState.mk [] [], ApiResp.badRequest "amount required", false) ∧
    capturePaypalOrder (ServerState.mk [] []) none (CaptureResult.mk "X" "Y")
      = (ServerState.mk [] [], ApiResp.badRequest "orderId required", false) ∧
    subscriptionStatusRoute (ServerState.mk [] []) none (fun _ => "active")
      = (ServerState.mk [] [], ApiResp.badRequest "userId required", false) := by
  have h := missing_required_field_rejected (ServerState.mk [] [])
    (CheckoutReq.mk none none none) "anon_1" "cus_9" "sess_9" none
    none none "pp_9" "CREATED" none none (CaptureResult.mk "X" "Y") none
    (fun _ => "active")
  exact ⟨h.1 rfl, h.2.1 rfl, h.2.2.1 rfl, h.2.2.2.1 rfl⟩

/-- C9: no route or webhook event ever deletes a user or order record —
every key present in either map before an operation is still present
afterwards, for each of the five state-touching operations. -/
theorem no_record_ever_deleted
    (req : CheckoutReq) (a b c : String) (url : Option String)
    (pUserId pAmount : Option String) (poid pst : String) (aurl : Option String)
    (oidReq : Option String) (cap : CaptureResult)
    (q : Option String) (retrieve : String → String)
    (sec : Bool) (ver : VerifyResult) (body : StripeEvent) :
    preservesKeys (fun s => (createCheckoutSession s req a b c url).1) ∧
    preservesKeys (fun s => (createPaypalOrder s pUserId pAmount poid pst aurl).1) ∧
    preservesKeys (fun s => (capturePaypalOrder s oidReq cap).1) ∧
    preservesKeys (fun s => (subscriptionStatusRoute s q retrieve).1) ∧
    preservesKeys (fun s => (webhookRoute s sec ver body).1) := by
  refine ⟨?_, ?_, ?_, ?_, ?_⟩ <;> intro s k <;> constructor <;> intro h
  · cases hp : orNull req.priceId with
    | none => simpa [createCheckoutSession, hp] using h
    | some pid =>
      have h1 := mapHas_ensureUser s.users ((orNull req.userId).getD a) req.email k h
      simp only [createCheckoutSession, hp]
      cases hcid : orNull
          (ensureUser s.users ((orNull req.userId).getD a) req.email).2.stripeCustomerId
      · exact mapHas_mapSet _ _ _ _ h1
      · exact h1
  · cases hp : orNull req.priceId with
    | none => simpa [createCheckoutSession, hp] using h
    | some pid =>
      simp only [createCheckoutSession, hp]
      exact mapHas_mapSet _ _ _ _ h
  · cases hp : orNull pAmount with
    | none => simpa [createPaypalOrder, hp] using h
    | some v => simpa [createPaypalOrder, hp] using h
  · cases hp : orNull pAmount with
    | none => simpa [createPaypalOrder, hp] using h
    | some v =>
      simp only [createPaypalOrder, hp]
      exact mapHas_mapSet _ _ _ _ h
  · cases hp : orNull oidReq with
    | none => simpa [capturePaypalOrder, hp] using h
    | some oid => simpa [capturePaypalOrder, hp] using h
  · cases hp : orNull oidReq with
    | none => simpa [capturePaypalOrder, hp] using h
    | some oid =>
      simp only [capturePaypalOrder, hp]
      exact mapHas_mapSet _ _ _ _ h
  · cases hq : orNull q with
    | none => simpa [subscriptionStatusRoute, hq] using h
    | some uid =>
      cases hu : mapGet s.users uid with
      | none => simpa [subscriptionStatusRoute, hq, hu] using h
      | some user =>
        cases hsub : orNull user.subscriptionId with
        | none => simpa [subscriptionStatusRoute, hq, hu, hsub] using h
        | some subId =>
          simp only [subscriptionStatusRoute, hq, hu, hsub]
          exact mapHas_mapSet _ _ _ _ h
  · cases hq : orNull q with
    | none => simpa [subscriptionStatusRoute, hq] using h
    | some uid =>
      cases hu : mapGet s.users uid with
      | none => simpa [subscriptionStatusRoute, hq, hu] using h
      | some user =>
        cases hsub : orNull user.subscriptionId with
        | none => simpa [subscriptionStatusRoute, hq, hu, hsub] using h
        | some subId => simpa [subscriptionStatusRoute, hq, hu, hsub] using h
  · cases sec with
    | false =>
      simp only [webhookRoute, Bool.false_eq_true, if_false]
      exact mapHas_handleEvent_users s body k h
    | true =>
      cases ver with
      | fail msg => simpa [webhookRoute] using h
      | ok e =>
        simp only [webhookRoute, if_pos]
        exact mapHas_handleEvent_users s e k h
  · cases sec with
    | false =>
      simp only [webhookRoute, Bool.false_eq_true, if_false]
      exact mapHas_handleEvent_orders s body k h
    | true =>
      cases ver with
      | fail msg => simpa [webhookRoute] using h
      | ok e =>
        simp only [webhookRoute, if_pos]
        exact mapHas_handleEvent_orders s e k h

/-- Witness for C9: keys "u1" and "o1" survive a verified webhook event and
a PayPal capture. -/
theorem no_record_ever_deleted_witness :
    mapHas (webhookRoute
        (ServerState.mk [("u1", UserRec.mk none none none none)]
          [("o1", emptyOrder)])
        true
        (VerifyResult.ok
          (StripeEvent.mk "checkout.session.completed" "o1" none none none "" ""))
        (StripeEvent.mk "checkout.session.completed" "o1" none none none "" "")).1.users
      "u1" = true ∧
    mapHas (capturePaypalOrder
        (ServerState.mk [("u1", UserRec.mk none none none none)]
          [("o1", emptyOrder)])
        (some "o1") (CaptureResult.mk "COMPLETED" "p")).1.orders "o1" = true := by
  have h9 := no_record_ever_deleted (CheckoutReq.mk none none none)
    "anon_1" "cus_9" "sess_9" none none none "pp_9" "CREATED" none
    (some "o1") (CaptureResult.mk "COMPLETED" "p") none (fun _ => "active")
    true
    (VerifyResult.ok
      (StripeEvent.mk "checkout.session.completed" "o1" none none none "" ""))
    (StripeEvent.mk "checkout.session.completed" "o1" none none none "" "")
  exact ⟨(h9.2.2.2.2
      (ServerState.mk [("u1", UserRec.mk none none none none)] [("o1", emptyOrder)])
      "u1").1 rfl,
    (h9.2.2.1
      (ServerState.mk [("u1", UserRec.mk none none none none)] [("o1", emptyOrder)])
      "o1").2 rfl⟩

/-- C10: GET /subscription-status mutates the store — for a stored user
with a subscriptionId, a successful request overwrites that user's
subscriptionStatus with the status retrieved from the provider, leaving
that user's other fields, every other user record and all orders
unchanged; for a stored user with no subscriptionId the request changes
nothing and makes no provider call. -/
theorem subscription_status_route_refreshes (s : ServerState) (q : Option String)
    (uid : String) (u : UserRec) (retrieve : String → String)
    (hq : orNull q = some uid) (hu : mapGet s.users uid = some u) :
    (∀ subId, orNull u.subscriptionId = some subId →
      (subscriptionStatusRoute s q retrieve).1.orders = s.orders ∧
      mapGet (subscriptionStatusRoute s q retrieve).1.users uid =
        some { u with subscriptionStatus := some (retrieve subId) } ∧
      (∀ k, k ≠ uid →
        mapGet (subscriptionStatusRoute s q retrieve).1.users k = mapGet s.users k) ∧
      (subscriptionStatusRoute s q retrieve).2.2 = true) ∧
    (orNull u.subscriptionId = none →
      subscriptionStatusRoute s q retrieve =
        (s, ApiResp.statusOk uid ((orNull u.subscriptionStatus).getD "none")
              u.stripeCustomerId, false)) := by
  constructor
  · intro subId hsub
    simp only [subscriptionStatusRoute, hq, hu, hsub]
    exact ⟨trivial, mapGet_mapSet_self _ _ _,
      fun k hk => mapGet_mapSet_ne _ _ _ _ (Ne.symm hk), trivial⟩
  · intro hsub
    simp only [subscriptionStatusRoute, hq, hu, hsub]

/-- Witness for C10: a user with a subscription id, refreshed to past_due. -/
theorem subscription_status_route_refreshes_witness :
    (∀ subId,
      orNull (UserRec.mk none (some "cus_1") (some "sub_1")
          (some "active")).subscriptionId = some subId →
      (subscriptionStatusRoute
          (ServerState.mk
            [("u1", UserRec.mk none (some "cus_1") (some "sub_1") (some "active"))]
            []) (some "u1") (fun _ => "past_due")).1.orders
        = (ServerState.mk
            [("u1", UserRec.mk none (some "cus_1") (some "sub_1") (some "active"))]
            []).orders ∧
      mapGet (subscriptionStatusRoute
          (ServerState.mk
            [("u1", UserRec.mk none (some "cus_1") (some "sub_1") (some "active"))]
            []) (some "u1") (fun _ => "past_due")).1.users "u1"
        = some { UserRec.mk none (some "cus_1") (some "sub_1") (some "active") with
                 subscriptionStatus := some ((fun (_ : String) => "past_due") subId) } ∧
      (∀ k, k ≠ "u1" →
        mapGet (subscriptionStatusRoute
            (ServerState.mk
              [("u1", UserRec.mk none (some "cus_1") (some "sub_1") (some "active"))]
              []) (some "u1") (fun _ => "past_due")).1.users k
          = mapGet (ServerState.mk
              [("u1", UserRec.mk none (some "cus_1") (some "sub_1") (some "active"))]
              []).users k) ∧
      (subscriptionStatusRoute
          (ServerState.mk
            [("u1", UserRec.mk none (some "cus_1") (some "sub_1") (some "active"))]
            []) (some "u1") (fun _ => "past_due")).2.2 = true) ∧
    (orNull (UserRec.mk none (some "cus_1") (some "sub_1")
        (some "active")).subscriptionId = none →
      subscriptionStatusRoute
          (ServerState.mk
            [("u1", UserRec.mk none (some "cus_1") (some "sub_1") (some "active"))]
            []) (some "u1") (fun _ => "past_due")
        = (ServerState.mk
            [("u1", UserRec.mk none (some "cus_1") (some "sub_1") (some "active"))]
            [],
           ApiResp.statusOk "u1"
             ((orNull (UserRec.mk none (some "cus_1") (some "sub_1")
                 (some "active")).subscriptionStatus).getD "none")
             (some "cus_1"), false)) :=
  subscription_status_route_refreshes
    (ServerState.mk
      [("u1", UserRec.mk none (some "cus_1") (some "sub_1") (some "active"))] [])
    (some "u1") "u1" (UserRec.mk none (some "cus_1") (some "sub_1") (some "active"))
    (fun _ => "past_due") rfl rfl

end ClarityServer
